import Mathlib

/-!
Verification of the MPU-Drink-Coaster motion-detection firmware corpus.

This file gives a shallow embedding, in Lean 4, of the core motion-classification,
arming, baseline and event-log logic of the sketches in the repository:

* `V5`     — part_001 first sketch (DrinkGuard Interactive Coaster v5):
             `detectSustainedMotionEvents`, `handleArmSystem`, the auto-disarm
             timeout in `loop`.
* `MD3`    — motion_detection3.ino (Tamper Detection System):
             `detectSustainedMotionEvents`, `addEventToMotionLog`, `processSensorData`.
* `V4`     — Motion_Detection4.ino (Tamper Detection System v2):
             `detectSustainedMotionEvents`, `handleUpdateSetting`.
* `MD1`    — motion_detection.ino first sketch:
             `readTelemetryDataAndAngles`, `addMotionToLog`.
* `MD2`    — motion_detection2.ino: `handleUpdateSettings`.
* `Aura`   — part_002 (AuraGuard Coaster v21): `checkForSlowMove`,
             `processMotionDetection` logging, `httpHandleArmCommand`.
* `TG7`    — part_000 (Tap-Guard v7): `thrVal`, `hSens`.
* `TG8`    — motion_detection.ino second sketch (Tap-Guard v8): `thrVal`, `hSens`.
* `Alpha`  — Motion_Detection_Alpha.ino (Tap-Guard v5.1): `calcThr`.
* `Alpha2` — Motion_Detection_Alpha2.ino (Tap-Guard v6): `calcThr`, `hSens`.

Conventions of the embedding:

* `millis()` timestamps and durations are `ℕ` (milliseconds).  The firmware's
  `unsigned long` subtractions `now - start` always have `now ≥ start` (millis is
  monotone and `start` is a recorded earlier reading), so truncated `ℕ`
  subtraction agrees with the 32-bit unsigned subtraction of the source.
* Sensor readings, angles and thresholds (C `float`) are embedded as exact
  rationals `ℚ`; the float-to-int conversions of the source (C truncation toward
  zero) are embedded by `ftrunc`.
* Comparisons of the form `sqrt e < c` in the source are embedded as the
  equivalent `e < c^2` (both sides nonnegative), since `sqrt` does not exist on `ℚ`.
* `atan2` appears in the sources only as an opaque value producer; the embedding
  takes it as an explicit function argument, except for the single point the
  claims probe, `atan2(0, 0)`, which C/POSIX defines to be `0` (`atan2degAtOrigin`).
-/

/-- Per-type sustained-motion detector state: the globals
`sustained*StartTime_ms` (0 encodes "no candidate", as in the source, which
uses 0 as the sentinel) and `isSustained*` of the sketches. -/
structure Det where
  start : ℕ
  sustained : Bool
deriving DecidableEq, Repr

/-- One poll tick of one detector of `detectSustainedMotionEvents` in part_001
(DrinkGuard v5), lines 232-276: all three types (tilt, slide, lift) share this
shape, differing only in the deviation metric and the configured duration.
`above` is the result of the type's `deviation > threshold` comparison,
`now` is `millis()`.  Source shape:
`if (above) { if (start == 0) start = now; if (now - start >= DUR) { if (!sustained) { sustained = true; fire } } } else { start = 0; sustained = false; }`
Returns the new state and whether the rising-edge event fired this tick. -/
def tickDetect (dur : ℕ) (above : Bool) (now : ℕ) (d : Det) : Det × Bool :=
  if above then
    let s := if d.start = 0 then now else d.start
    if dur ≤ now - s then
      if d.sustained then (⟨s, true⟩, false) else (⟨s, true⟩, true)
    else (⟨s, d.sustained⟩, false)
  else (⟨0, false⟩, false)

/-- One poll tick of one detector of `detectSustainedMotionEvents` in
motion_detection3.ino, lines 205-220 / 235-250 (steady state, after the
`firstTiltCheck` sample has been consumed).  Differs from `tickDetect` in that
the duration test is in an `else if`: the tick that records the candidate start
does not itself test the duration. -/
def tickDetectV3 (dur : ℕ) (above : Bool) (now : ℕ) (d : Det) : Det × Bool :=
  if above then
    if d.start = 0 then (⟨now, d.sustained⟩, false)
    else if dur ≤ now - d.start then
      if d.sustained then (d, false) else (⟨d.start, true⟩, true)
    else (d, false)
  else (⟨0, false⟩, false)

/-- One poll tick of one detector of `detectSustainedMotionEvents` in
Motion_Detection4.ino, lines 193-210 / 226-244 (steady state).  Same `else if`
shape as `tickDetectV3`, but the below-threshold branch resets only the
candidate timer: the source comments
"isSustainedTilt will be reset by updateSystemIndicators if motion window passes",
so the sustained flag survives the falling edge. -/
def tickDetectV4 (dur : ℕ) (above : Bool) (now : ℕ) (d : Det) : Det × Bool :=
  if above then
    if d.start = 0 then (⟨now, d.sustained⟩, false)
    else if dur ≤ now - d.start then
      if d.sustained then (d, false) else (⟨d.start, true⟩, true)
    else (d, false)
  else (⟨0, d.sustained⟩, false)

/-- The rising-edge outputs of a run of `tickDetect` over consecutive poll
ticks at the given `millis()` times, on a deviation sequence that is above
threshold at every tick of the run. -/
def detRunAbove (dur : ℕ) (d : Det) : List ℕ → List Bool
  | [] => []
  | t :: ts => (tickDetect dur true t d).2 :: detRunAbove dur (tickDetect dur true t d).1 ts

/-- The event pattern the specification predicts for a continuously-above run
whose candidate started at time `s`: one rising edge at the first tick whose
elapsed time since `s` reaches `dur`, and nothing anywhere else. -/
def expectedFire (dur s : ℕ) : List ℕ → List Bool
  | [] => []
  | t :: ts => if dur ≤ t - s then true :: ts.map (fun _ => false) else false :: expectedFire dur s ts

namespace V5

/-- The global state of part_001 (DrinkGuard v5) touched by `handleArmSystem`
and `handleDisarmSystem`.  `timeRemaining_s` is derived display state and the
web/LED indicator booleans are presentation state; they are omitted. -/
structure SystemState where
  systemArmed : Bool
  armStartTime_ms : ℕ
  baseRoll_deg : ℚ
  basePitch_deg : ℚ
  baseAccelZ_ms2 : ℚ
  currentYaw_deg : ℚ
  isSustainedTilt : Bool
  isSustainedSlide : Bool
  isSustainedLift : Bool
  lastMotionType : String
  lastMotionTimestamp_ms : ℕ
  sustainedTiltStartTime_ms : ℕ
  sustainedSlideStartTime_ms : ℕ
  sustainedLiftStartTime_ms : ℕ
deriving DecidableEq, Repr

/-- `handleArmSystem` of part_001, lines 193-212.  `now` is `millis()`;
`freshRoll`, `freshPitch`, `freshAccelZ` are the orientation and raw Z
acceleration produced by the `processSensorData()` call the handler makes
before capturing the baseline (the handler zeroes the accumulated yaw
afterwards).  Note which fields the source does NOT touch: the three
`sustained*StartTime_ms` candidate timers. -/
def handleArmSystem (now : ℕ) (freshRoll freshPitch freshAccelZ : ℚ)
    (st : SystemState) : SystemState :=
  { st with
    systemArmed := true
    armStartTime_ms := now
    baseRoll_deg := freshRoll
    basePitch_deg := freshPitch
    baseAccelZ_ms2 := freshAccelZ
    currentYaw_deg := 0
    isSustainedTilt := false
    isSustainedSlide := false
    isSustainedLift := false
    lastMotionType := "None"
    lastMotionTimestamp_ms := 0 }

/-- `ARMED_DURATION_MS` of part_001, line 55: `10 * 60 * 1000`. -/
def ARMED_DURATION_MS : ℕ := 10 * 60 * 1000

/-- The auto-disarm check of `loop()` in part_001, lines 128-134: while armed,
if `currentTime_ms - armStartTime_ms >= ARMED_DURATION_MS` the system disarms.
Returns the value of `systemArmed` after the tick (the cleanup of the motion
flags on expiry is omitted here; this claim is about the arm state). -/
def loopArmTimeout (armStart now : ℕ) (armed : Bool) : Bool :=
  if armed ∧ ARMED_DURATION_MS ≤ now - armStart then false else armed

/-- The `systemArmed` value after each of a sequence of `loop()` iterations at
the given `millis()` times, with no disarm command and no re-arm in between. -/
def loopArmTimeoutRun (armStart : ℕ) (armed : Bool) : List ℕ → List Bool
  | [] => []
  | t :: ts =>
      loopArmTimeout armStart t armed ::
        loopArmTimeoutRun armStart (loopArmTimeout armStart t armed) ts

end V5

namespace MD1

/-- `MAX_MOTION_LOG_ENTRIES` of motion_detection.ino, line 96. -/
def MAX_MOTION_LOG_ENTRIES : ℕ := 20

/-- `addMotionToLog` of motion_detection.ino, lines 225-230:
`if (motionLog.size() >= MAX_MOTION_LOG_ENTRIES) motionLog.erase(motionLog.begin()); motionLog.push_back(nE);`
The log entry payload (timestamp, type string, telemetry snapshot) is inert for
the insertion logic, so the entry type is a parameter. -/
def addMotionToLog {α : Type} (e : α) (log : List α) : List α :=
  (if MAX_MOTION_LOG_ENTRIES ≤ log.length then log.tail else log) ++ [e]

/-- The near-zero guard bound `1e-4f` of `readTelemetryDataAndAngles`
(motion_detection.ino, lines 190-193). -/
def NEAR_ZERO_EPS : ℚ := 1/10000

/-- The roll computation of `readTelemetryDataAndAngles`, motion_detection.ino
lines 189-191:
`if (abs(az) < 1e-4f && abs(ay) < 1e-4f) current_roll = firstTiltReading ? 0.0f : prev_roll_tilt; else current_roll = atan2(ay, az) * 180.0 / M_PI;`
`atan2deg` stands for `atan2(·,·) * 180 / π`. -/
def readRoll (atan2deg : ℚ → ℚ → ℚ) (ay az prevRoll : ℚ) (firstTiltReading : Bool) : ℚ :=
  if |az| < NEAR_ZERO_EPS ∧ |ay| < NEAR_ZERO_EPS then
    (if firstTiltReading then 0 else prevRoll)
  else atan2deg ay az

/-- The pitch computation of `readTelemetryDataAndAngles`, motion_detection.ino
lines 192-194.  The source guard is `sqrt(ay^2 + az^2) < 1e-4f`, embedded as the
equivalent square comparison; `pitchFromSample` stands for
`atan2(-ax, sqrt(ay^2 + az^2)) * 180 / π` as a function of the sample. -/
def readPitch (pitchFromSample : ℚ → ℚ → ℚ → ℚ) (ax ay az prevPitch : ℚ)
    (firstTiltReading : Bool) : ℚ :=
  if ay^2 + az^2 < NEAR_ZERO_EPS^2 then
    (if firstTiltReading then 0 else prevPitch)
  else pitchFromSample ax ay az

end MD1

/-- Stand-in for `atan2(y, z) * 180 / π` when the only probed point is the
degenerate origin: C/POSIX defines `atan2(+0.0, +0.0) = +0.0`, so the value at
`(0, 0)` is `0`.  The counterexample below evaluates the unguarded roll
computation only at that point. -/
def atan2degAtOrigin : ℚ → ℚ → ℚ := fun _ _ => 0

namespace MD3

/-- The roll assignment of `processSensorData` in motion_detection3.ino,
line 187 (identically part_001 line 184): `currentRoll_deg = atan2(ay, az) * 180 / π`
with no near-zero guard.  `prevRoll` is the value of the global
`currentRoll_deg` being overwritten; the assignment discards it. -/
def processSensorDataRoll (atan2deg : ℚ → ℚ → ℚ) (prevRoll ay az : ℚ) : ℚ :=
  atan2deg ay az

/-- An event of the `motionEventLog` of motion_detection3.ino, lines 87-92. -/
structure MotionLogEntry where
  timestamp_ms : ℕ
  motionType : String
  rollAtDetection_deg : ℚ
  pitchAtDetection_deg : ℚ
deriving DecidableEq, Repr

/-- The `motionEventLog` vector together with the `lastLogEntryTime_ms` global
of motion_detection3.ino. -/
structure MotionEventLog where
  entries : List MotionLogEntry
  lastLogEntryTime_ms : ℕ
deriving DecidableEq, Repr

/-- `MAX_LOG_ENTRIES` of motion_detection3.ino, line 56. -/
def MAX_LOG_ENTRIES : ℕ := 10

/-- `MIN_LOG_INTERVAL_MS` of motion_detection3.ino, line 57. -/
def MIN_LOG_INTERVAL_MS : ℕ := 250

/-- `addEventToMotionLog` of motion_detection3.ino, lines 287-300.  `ts` is the
event timestamp argument, `now` the fresh `millis()` the function reads for the
debounce test and for `lastLogEntryTime_ms`:
`if (now - lastLogEntryTime_ms < MIN_LOG_INTERVAL_MS && !motionEventLog.empty()) return;`
`if (size >= MAX_LOG_ENTRIES) erase(begin());` `push_back(newEntry); lastLogEntryTime_ms = now;` -/
def addEventToMotionLog (ts : ℕ) (ty : String) (r p : ℚ) (now : ℕ)
    (log : MotionEventLog) : MotionEventLog :=
  if now - log.lastLogEntryTime_ms < MIN_LOG_INTERVAL_MS ∧ log.entries ≠ [] then log
  else
    { entries :=
        (if MAX_LOG_ENTRIES ≤ log.entries.length then log.entries.tail else log.entries)
          ++ [⟨ts, ty, r, p⟩]
      lastLogEntryTime_ms := now }

end MD3

namespace Aura

/-- `MAX_MOTION_LOG_ENTRIES` of part_002, line 103. -/
def MAX_MOTION_LOG_ENTRIES : ℕ := 30

/-- The logging step of `processMotionDetection` in part_002, lines 732-747
(armed case): `if (g_motionLogCount < MAX_MOTION_LOG_ENTRIES) { g_motionLog[g_motionLogCount] = entry; g_motionLogCount++; } else { warn "Event log full"; }`
The `g_motionLog` array up to `g_motionLogCount` is modelled as a list. -/
def logAppend {α : Type} (e : α) (log : List α) : List α :=
  if log.length < MAX_MOTION_LOG_ENTRIES then log ++ [e] else log

/-- `SLOW_MOVE_THRESHOLD_G` of part_002, line 90 (`0.035`). -/
def SLOW_MOVE_THRESHOLD_G : ℚ := 35/1000

/-- `SLOW_MOVE_MIN_DURATION_MS` of part_002, line 91. -/
def SLOW_MOVE_MIN_DURATION_MS : ℕ := 750

/-- `ACCEL_READ_INTERVAL_MS` of part_002, line 88. -/
def ACCEL_READ_INTERVAL_MS : ℕ := 100

/-- The state read and written by `checkForSlowMove` in part_002. -/
structure SlowMoveState where
  accelBaselineMagnitude : ℚ
  potentialSlowMove : Bool
  slowMoveStartTime : ℕ
  baselineEstablished : Bool
deriving DecidableEq, Repr

/-- The smoothed magnitude computed by `checkForSlowMove`: the mean of the
`SLOW_MOVE_SAMPLE_COUNT = 5` entries of `g_accelMagnitudeSamples`. -/
def smoothedMagnitude (samples : List ℚ) : ℚ := samples.sum / 5

/-- `checkForSlowMove` of part_002, lines 674-706, with `now = millis()` and
`samples = g_accelMagnitudeSamples`.  Returns the new state and the returned
boolean (a sustained slow-move event).  Note the two baseline writes: the
firing branch re-baselines to the current smoothed magnitude, and the
below-threshold branch blends `0.95 * old + 0.05 * current` on ticks where
`millis() % (ACCEL_READ_INTERVAL_MS * 10) == 0`. -/
def checkForSlowMove (now : ℕ) (samples : List ℚ) (st : SlowMoveState) :
    SlowMoveState × Bool :=
  if st.baselineEstablished = false then
    ({ st with accelBaselineMagnitude := smoothedMagnitude samples }, false)
  else
    let cur := smoothedMagnitude samples
    if SLOW_MOVE_THRESHOLD_G < |cur - st.accelBaselineMagnitude| then
      if st.potentialSlowMove = false then
        ({ st with potentialSlowMove := true, slowMoveStartTime := now }, false)
      else if SLOW_MOVE_MIN_DURATION_MS ≤ now - st.slowMoveStartTime then
        ({ st with accelBaselineMagnitude := cur, potentialSlowMove := false }, true)
      else (st, false)
    else
      if now % (ACCEL_READ_INTERVAL_MS * 10) = 0 then
        ({ st with
            potentialSlowMove := false
            accelBaselineMagnitude :=
              st.accelBaselineMagnitude * (95/100) + cur * (5/100) }, false)
      else ({ st with potentialSlowMove := false }, false)

/-- The global state of part_002 touched by `httpHandleArmCommand`. -/
structure SystemState where
  isSystemArmed : Bool
  motionEventForWebUI : Bool
  motionLog : List String
  armingTimeMillis : ℕ
  baselineEstablished : Bool
  accelMagnitudeSamples : List ℚ
  accelSampleIndex : ℕ
  potentialSlowMove : Bool
  slowMoveStartTime : ℕ
  accelBaselineMagnitude : ℚ
deriving DecidableEq, Repr

/-- `httpHandleArmCommand` of part_002, lines 769-793, for a request carrying a
`state` argument (`reqArmState` is `arg("state") == "1"`); `now = millis()`.
Arming clears the log (`g_motionLogCount = 0`), restarts the arm timer, drops
the baseline (`g_baselineEstablished = false`), zeroes the sample window and
clears the slow-move candidate flag. -/
def httpHandleArmCommand (reqArmState : Bool) (now : ℕ) (st : SystemState) : SystemState :=
  if reqArmState then
    { st with
      isSystemArmed := true
      motionEventForWebUI := false
      motionLog := []
      armingTimeMillis := now
      baselineEstablished := false
      accelMagnitudeSamples := List.replicate 5 0
      accelSampleIndex := 0
      potentialSlowMove := false }
  else
    { st with isSystemArmed := false, motionEventForWebUI := false }

end Aura

/-- C truncation toward zero of a `float`/`double` value converted to `int`,
on the exact rational embedding. -/
def ftrunc (q : ℚ) : ℤ := if q < 0 then ⌈q⌉ else ⌊q⌋

/-- Arduino `constrain(amt, low, high)` on rationals:
`amt < low ? low : (amt > high ? high : amt)`. -/
def constrainQ (x lo hi : ℚ) : ℚ := if x < lo then lo else if hi < x then hi else x

/-- Arduino `constrain(amt, low, high)` on integers. -/
def constrainZ (x lo hi : ℤ) : ℤ := if x < lo then lo else if hi < x then hi else x

/-- Arduino integer `map(x, in_min, in_max, out_min, out_max)`:
`(x - in_min) * (out_max - out_min) / (in_max - in_min) + out_min` with C `long`
division (truncation toward zero, `Int.tdiv`). -/
def mapArduino (x inMin inMax outMin outMax : ℤ) : ℤ :=
  Int.tdiv ((x - inMin) * (outMax - outMin)) (inMax - inMin) + outMin

namespace MD2

/-- The `slide_thresh_accel` case of `handleUpdateSettings` in
motion_detection2.ino, line 148:
`if (v >= 0.05f && v <= 5.0f) currentSlideThresholdAccel = v; else warn;`
Returns the new value of `currentSlideThresholdAccel` given the submitted value
`v` and the current value `cur`: an out-of-range value leaves it unchanged. -/
def handleUpdateSlideThresh (v cur : ℚ) : ℚ :=
  if 1/20 ≤ v ∧ v ≤ 5 then v else cur

/-- The `slide_duration_ms` case of `handleUpdateSettings` in
motion_detection2.ino, line 149: `if (v >= 50 && v <= 3000) ... = v; else warn;` -/
def handleUpdateSlideDur (v cur : ℕ) : ℕ :=
  if 50 ≤ v ∧ v ≤ 3000 then v else cur

end MD2

namespace V4

/-- The `tilt_thresh` case of `handleUpdateSetting` in Motion_Detection4.ino,
lines 292-297: step 0.1, `constrain(val, 0.2f, 5.0f)`. -/
def handleUpdateTiltThresh (action : String) (cur : ℚ) : ℚ :=
  constrainQ (if action = "inc" then cur + 1/10 else if action = "dec" then cur - 1/10 else cur)
    (1/5) 5

/-- The `tilt_dur` case of `handleUpdateSetting` in Motion_Detection4.ino,
lines 298-303: step 25 ms, `constrain(val, 50, 1000)`. -/
def handleUpdateTiltDur (action : String) (cur : ℤ) : ℤ :=
  constrainZ (if action = "inc" then cur + 25 else if action = "dec" then cur - 25 else cur)
    50 1000

/-- The `slide_thresh` case of `handleUpdateSetting` in Motion_Detection4.ino,
lines 304-309: step 0.1, `constrain(val, 0.1f, 3.0f)`. -/
def handleUpdateSlideThresh (action : String) (cur : ℚ) : ℚ :=
  constrainQ (if action = "inc" then cur + 1/10 else if action = "dec" then cur - 1/10 else cur)
    (1/10) 3

/-- The `slide_dur` case of `handleUpdateSetting` in Motion_Detection4.ino,
lines 310-315: step 25 ms, `constrain(val, 50, 1000)`. -/
def handleUpdateSlideDur (action : String) (cur : ℤ) : ℤ :=
  constrainZ (if action = "inc" then cur + 25 else if action = "dec" then cur - 25 else cur)
    50 1000

end V4

namespace TG7

/-- `THR_MIN` of part_000, line 13. -/
def THR_MIN : ℤ := 1

/-- `THR_MAX` of part_000, line 14. -/
def THR_MAX : ℤ := 180

/-- `thrVal` of part_000, lines 23-25:
`return THR_MAX - (level-1) * ((THR_MAX-THR_MIN)/9.0f);`
The arithmetic is float (the divisor is `9.0f`), converted to `int` on return. -/
def thrVal (level : ℤ) : ℤ :=
  ftrunc ((THR_MAX : ℚ) - ((level : ℚ) - 1) * (((THR_MAX : ℚ) - (THR_MIN : ℚ)) / 9))

/-- `hSens` of part_000, line 94: `level = constrain(arg.toInt(), 1, 10)`. -/
def hSens (val : ℤ) : ℤ := constrainZ val 1 10

end TG7

namespace TG8

/-- `thrVal` of the Tap-Guard v8 sketch in motion_detection.ino, lines 447-462:
level 5 maps to the optimal threshold 1, levels above 5 to the most sensitive 1,
and levels 1-4 through `map(level, 1, 4, 80, 2)` (integer map, exact here). -/
def thrVal (level : ℤ) : ℤ :=
  if level = 5 then 1
  else if 5 < level then 1
  else mapArduino level 1 4 80 2

/-- The level update of `hSens` in the Tap-Guard v8 sketch, line 643:
`level = constrain(newLevel, 1, 10)`. -/
def hSens (newLevel : ℤ) : ℤ := constrainZ newLevel 1 10

end TG8

namespace Alpha

/-- `calcThr` of Motion_Detection_Alpha.ino, line 11:
`return max(1, int(25 - sens * 24));` -/
def calcThr (sens : ℚ) : ℤ := max 1 (ftrunc (25 - sens * 24))

end Alpha

namespace Alpha2

/-- `THR_MIN` of Motion_Detection_Alpha2.ino, line 15. -/
def THR_MIN : ℤ := 1

/-- `THR_MAX` of Motion_Detection_Alpha2.ino, line 16. -/
def THR_MAX : ℤ := 120

/-- `calcThr` of Motion_Detection_Alpha2.ino, line 18:
`return max(THR_MIN, int(THR_MAX - sens * (THR_MAX - THR_MIN)));` -/
def calcThr (sens : ℚ) : ℤ :=
  max THR_MIN (ftrunc ((THR_MAX : ℚ) - sens * ((THR_MAX : ℚ) - (THR_MIN : ℚ))))

/-- The sensitivity update of `hSens` in Motion_Detection_Alpha2.ino, line 132:
`sens = constrain(arg.toFloat(), 0.0f, 1.0f)`. -/
def hSens (val : ℚ) : ℚ := constrainQ val 0 1

end Alpha2

/-! ## Theorems -/

theorem tickDetect_false_of_sustained (dur t : ℕ) (s : ℕ) :
    tickDetect dur true t ⟨s, true⟩ = (⟨if s = 0 then t else s, true⟩, false) := by
  by_cases hc : dur ≤ t - (if s = 0 then t else s) <;> simp [tickDetect, hc]

theorem detRunAbove_of_sustained (dur : ℕ) (ts : List ℕ) : ∀ s : ℕ,
    detRunAbove dur ⟨s, true⟩ ts = ts.map (fun _ => false) := by
  induction ts with
  | nil => intro s; rfl
  | cons t ts ih =>
    intro s
    simp [detRunAbove, tickDetect_false_of_sustained, ih]

theorem detRunAbove_of_candidate (dur : ℕ) (ts : List ℕ) : ∀ s : ℕ, s ≠ 0 →
    detRunAbove dur ⟨s, false⟩ ts = expectedFire dur s ts := by
  induction ts with
  | nil => intro s _; rfl
  | cons t ts ih =>
    intro s hs
    by_cases hc : dur ≤ t - s
    · have h1 : tickDetect dur true t ⟨s, false⟩ = (⟨s, true⟩, true) := by
        simp [tickDetect, hs, hc]
      simp [detRunAbove, expectedFire, h1, hc, detRunAbove_of_sustained]
    · have h1 : tickDetect dur true t ⟨s, false⟩ = (⟨s, false⟩, false) := by
        simp [tickDetect, hs, hc]
      simp [detRunAbove, expectedFire, h1, hc, ih s hs]

theorem count_true_map_false (ts : List ℕ) :
    (ts.map (fun _ => false)).count true = 0 := by
  simp [List.count_replicate]

theorem count_expectedFire_le_one (dur s : ℕ) (ts : List ℕ) :
    (expectedFire dur s ts).count true ≤ 1 := by
  induction ts with
  | nil => simp [expectedFire]
  | cons t ts ih =>
    by_cases hc : dur ≤ t - s
    · simp [expectedFire, hc, List.count_cons, List.count_replicate]
    · simpa [expectedFire, hc, List.count_cons] using ih

theorem count_expectedFire_eq_one (dur s : ℕ) (ts : List ℕ)
    (h : ∃ t ∈ ts, dur ≤ t - s) : (expectedFire dur s ts).count true = 1 := by
  induction ts with
  | nil => simp at h
  | cons t ts ih =>
    by_cases hc : dur ≤ t - s
    · simp [expectedFire, hc, List.count_cons, List.count_replicate]
    · obtain ⟨u, hu, hdu⟩ := h
      rcases List.mem_cons.mp hu with h1 | h1
      · exact absurd (h1 ▸ hdu) hc
      · simpa [expectedFire, hc, List.count_cons] using ih ⟨u, h1, hdu⟩

/-- C1: for each motion type of `detectSustainedMotionEvents` (tilt, slide,
lift share the step `tickDetect`, with the type's duration), and any run of
poll ticks on which the deviation exceeds the threshold at every tick, starting
from the idle detector: the emitted rising-edge events are exactly the pattern
`expectedFire`, i.e. a single event at the first tick whose elapsed time since
the candidate start (the first tick of the run) reaches the duration; at most
one event ever fires, and exactly one fires as soon as the run lasts at least
the duration.  The hypothesis `1 ≤ t0` excludes only `millis() = 0`, where the
source's `start == 0` idle sentinel would collide with a genuine start time. -/
theorem c1_sustained_single_rising_edge (dur t0 : ℕ) (rest : List ℕ) (h : 1 ≤ t0) :
    detRunAbove dur ⟨0, false⟩ (t0 :: rest) = expectedFire dur t0 (t0 :: rest) ∧
    (detRunAbove dur ⟨0, false⟩ (t0 :: rest)).count true ≤ 1 ∧
    ((∃ t ∈ t0 :: rest, dur ≤ t - t0) →
      (detRunAbove dur ⟨0, false⟩ (t0 :: rest)).count true = 1) := by
  have hne : t0 ≠ 0 := by omega
  have hrun : detRunAbove dur ⟨0, false⟩ (t0 :: rest) = expectedFire dur t0 (t0 :: rest) := by
    by_cases hd : dur = 0
    · subst hd
      have h1 : tickDetect 0 true t0 ⟨0, false⟩ = (⟨t0, true⟩, true) := by
        simp [tickDetect]
      simp [detRunAbove, expectedFire, h1, detRunAbove_of_sustained]
    · have hle : ¬ dur ≤ t0 - t0 := by omega
      have h1 : tickDetect dur true t0 ⟨0, false⟩ = (⟨t0, false⟩, false) := by
        simp [tickDetect, hle, hd]
      simp [detRunAbove, expectedFire, h1, hle, hd, detRunAbove_of_candidate dur rest t0 hne]
  refine ⟨hrun, ?_, fun hex => ?_⟩
  · rw [hrun]; exact count_expectedFire_le_one dur t0 _
  · rw [hrun]; exact count_expectedFire_eq_one dur t0 _ hex

theorem c1_witness :
    detRunAbove 500 ⟨0, false⟩ [1000, 1200, 1500, 1550] = [false, false, true, false] ∧
    (detRunAbove 500 ⟨0, false⟩ [1000, 1200, 1500, 1550]).count true = 1 := by
  have h := c1_sustained_single_rising_edge 500 1000 [1200, 1500, 1550] (by decide)
  exact ⟨by decide, h.2.2 ⟨1500, by decide, by decide⟩⟩

/-- C4 counterexample: in `detectSustainedMotionEvents` of Motion_Detection4.ino,
a below-threshold poll tick hitting a Sustained tilt detector (here: duration
250 ms, candidate started at 500, now 1000) clears the candidate timer but does
NOT clear the sustained flag on that tick — the source defers it to
`updateSystemIndicators` via the display window — so the claimed immediate
Sustained-to-Idle falling edge is false for this cited variant. -/
theorem c4_counterexample :
    ((tickDetectV4 250 false 1000 ⟨500, true⟩).1).sustained = true ∧
    ((tickDetectV4 250 false 1000 ⟨500, true⟩).1).start = 0 := by decide

/-- C4 amended: on any poll tick with deviation at or below the threshold, the
part_001 and motion_detection3 detectors transition fully to Idle on that tick
(timer cleared, sustained flag cleared, no event), while the
Motion_Detection4 detector clears only the candidate timer and leaves the
sustained flag unchanged (it is cleared later by the presentation-layer
display-window logic). -/
theorem c4_amended_falling_edge (dur now : ℕ) (d : Det) :
    (tickDetect dur false now d).1 = ⟨0, false⟩ ∧
    (tickDetect dur false now d).2 = false ∧
    (tickDetectV3 dur false now d).1 = ⟨0, false⟩ ∧
    (tickDetectV3 dur false now d).2 = false ∧
    ((tickDetectV4 dur false now d).1).start = 0 ∧
    ((tickDetectV4 dur false now d).1).sustained = d.sustained ∧
    (tickDetectV4 dur false now d).2 = false := by
  simp [tickDetect, tickDetectV3, tickDetectV4]

/-- C2 counterexample: `handleArmSystem` of part_001 does not clear the
candidate-start timers.  Arming from a state whose tilt candidate timer holds 5
leaves it at 5 (the source resets the `isSustained*` flags, the baseline, the
yaw and the arm timer, but never writes `sustained*StartTime_ms`), so the
claimed full reset of every MotionCandidate to Idle is false. -/
theorem c2_counterexample :
    (V5.handleArmSystem 1000 0 0 (981/100)
        ⟨true, 0, 0, 0, 981/100, 0, false, true, false, "TILT", 900, 5, 0, 0⟩).sustainedTiltStartTime_ms
      = 5 ∧ (5 : ℕ) ≠ 0 := by
  exact ⟨rfl, by decide⟩

/-- C2 amended: arming always sets the armed flag, restarts the arm timer at
the current time, clears all three sustained flags and zeroes the accumulated
yaw (part_001), and in the AuraGuard variant (part_002) also resets the
baseline to unestablished, clears the event log and the slow-move candidate
flag; but part_001 leaves the three candidate-start timers exactly as they
were. -/
theorem c2_amended_arm_reset (now : ℕ) (r p z : ℚ) (st : V5.SystemState)
    (now2 : ℕ) (st2 : Aura.SystemState) :
    (V5.handleArmSystem now r p z st).systemArmed = true ∧
    (V5.handleArmSystem now r p z st).armStartTime_ms = now ∧
    (V5.handleArmSystem now r p z st).isSustainedTilt = false ∧
    (V5.handleArmSystem now r p z st).isSustainedSlide = false ∧
    (V5.handleArmSystem now r p z st).isSustainedLift = false ∧
    (V5.handleArmSystem now r p z st).currentYaw_deg = 0 ∧
    (V5.handleArmSystem now r p z st).lastMotionTimestamp_ms = 0 ∧
    (V5.handleArmSystem now r p z st).sustainedTiltStartTime_ms = st.sustainedTiltStartTime_ms ∧
    (V5.handleArmSystem now r p z st).sustainedSlideStartTime_ms = st.sustainedSlideStartTime_ms ∧
    (V5.handleArmSystem now r p z st).sustainedLiftStartTime_ms = st.sustainedLiftStartTime_ms ∧
    (Aura.httpHandleArmCommand true now2 st2).isSystemArmed = true ∧
    (Aura.httpHandleArmCommand true now2 st2).baselineEstablished = false ∧
    (Aura.httpHandleArmCommand true now2 st2).motionLog = [] ∧
    (Aura.httpHandleArmCommand true now2 st2).armingTimeMillis = now2 ∧
    (Aura.httpHandleArmCommand true now2 st2).potentialSlowMove = false := by
  simp [V5.handleArmSystem, Aura.httpHandleArmCommand]

theorem loopArmTimeout_of_disarmed (armStart now : ℕ) :
    V5.loopArmTimeout armStart now false = false := by
  simp [V5.loopArmTimeout]

theorem loopArmTimeoutRun_of_disarmed (armStart : ℕ) (ts : List ℕ) :
    V5.loopArmTimeoutRun armStart false ts = ts.map (fun _ => false) := by
  induction ts with
  | nil => rfl
  | cons t ts ih => simp [V5.loopArmTimeoutRun, loopArmTimeout_of_disarmed, ih]

/-- C5: with `ARMED_DURATION_MS = 600000` and no disarm command, the armed flag
after each `loop()` iteration equals "elapsed time since arming is still below
600000 ms": the system disarms exactly at the first iteration whose elapsed
time reaches 600000 ms and at no earlier one (iteration times are taken
nondecreasing, as `millis()` is monotone). -/
theorem c5_auto_disarm_exact (armStart : ℕ) (ticks : List ℕ)
    (hs : ticks.Pairwise (· ≤ ·)) :
    V5.loopArmTimeoutRun armStart true ticks =
      ticks.map (fun t => decide (t - armStart < V5.ARMED_DURATION_MS)) := by
  induction ticks with
  | nil => rfl
  | cons t ts ih =>
    have hhead := List.pairwise_cons.mp hs
    by_cases hc : V5.ARMED_DURATION_MS ≤ t - armStart
    · have h1 : V5.loopArmTimeout armStart t true = false := by
        simp [V5.loopArmTimeout, hc]
      have h2 : ∀ u ∈ ts, (fun _ => false) u = decide (u - armStart < V5.ARMED_DURATION_MS) := by
        intro u hu
        have h3 : t ≤ u := hhead.1 u hu
        have h4 : ¬ u - armStart < V5.ARMED_DURATION_MS := by omega
        simp [h4]
      have h5 : decide (t - armStart < V5.ARMED_DURATION_MS) = false := by
        simp; omega
      simp only [V5.loopArmTimeoutRun, h1, loopArmTimeoutRun_of_disarmed,
        List.map_cons, h5]
      exact congrArg _ (List.map_congr_left h2)
    · have h1 : V5.loopArmTimeout armStart t true = true := by
        simp [V5.loopArmTimeout, hc]
      have h5 : decide (t - armStart < V5.ARMED_DURATION_MS) = true := by
        simp; omega
      simp only [V5.loopArmTimeoutRun, h1, List.map_cons, h5]
      exact congrArg _ (ih hhead.2)

theorem c5_witness :
    V5.loopArmTimeoutRun 0 true [1000, 599999, 600000, 600001] =
      [true, true, false, false] := by
  have h := c5_auto_disarm_exact 0 [1000, 599999, 600000, 600001] (by decide)
  rw [h]; decide

/-- C3 counterexample: in part_002 (a cited source of the claim), an append to
the event log at capacity (30 entries) leaves the log unchanged: the oldest
entry (0) is retained and the new entry (30) is dropped, instead of the claimed
oldest-eviction followed by insertion of the new entry. -/
theorem c3_counterexample :
    Aura.logAppend 30 (List.range 30) = List.range 30 ∧
    30 ∉ Aura.logAppend 30 (List.range 30) ∧
    0 ∈ Aura.logAppend 30 (List.range 30) := by decide

/-- C3 amended: both logs never exceed their capacity; in motion_detection.ino
`addMotionToLog` appends below capacity and, at capacity, evicts exactly the
oldest entry and appends the new one at the end (insertion order of the
remainder preserved, new entry last); in part_002 an append at capacity leaves
the log unchanged, dropping the new entry instead. -/
theorem c3_amended_log_capacity {α : Type} (e : α) (log log2 : List α)
    (h1 : log.length ≤ 20) (h2 : log2.length ≤ 30) :
    (MD1.addMotionToLog e log).length ≤ 20 ∧
    (log.length < 20 → MD1.addMotionToLog e log = log ++ [e]) ∧
    (log.length = 20 → MD1.addMotionToLog e log = log.tail ++ [e]) ∧
    (MD1.addMotionToLog e log).getLast? = some e ∧
    (Aura.logAppend e log2).length ≤ 30 ∧
    (log2.length = 30 → Aura.logAppend e log2 = log2) := by
  refine ⟨?_, ?_, ?_, ?_, ?_, ?_⟩
  · by_cases hc : 20 ≤ log.length
    · have : log.length = 20 := by omega
      simp [MD1.addMotionToLog, MD1.MAX_MOTION_LOG_ENTRIES, hc, List.length_tail]
      omega
    · simp [MD1.addMotionToLog, MD1.MAX_MOTION_LOG_ENTRIES, hc]
      omega
  · intro hlt
    have hc : ¬ 20 ≤ log.length := by omega
    simp [MD1.addMotionToLog, MD1.MAX_MOTION_LOG_ENTRIES, hc]
  · intro heq
    have hc : 20 ≤ log.length := by omega
    simp [MD1.addMotionToLog, MD1.MAX_MOTION_LOG_ENTRIES, hc]
  · simp [MD1.addMotionToLog]
  · by_cases hc : log2.length < 30
    · simp [Aura.logAppend, Aura.MAX_MOTION_LOG_ENTRIES, hc]
      omega
    · simp [Aura.logAppend, Aura.MAX_MOTION_LOG_ENTRIES, hc]
      omega
  · intro heq
    have hc : ¬ log2.length < 30 := by omega
    simp [Aura.logAppend, Aura.MAX_MOTION_LOG_ENTRIES, hc]

theorem c3_witness :
    MD1.addMotionToLog 20 (List.range 20) = (List.range 20).tail ++ [20] ∧
    Aura.logAppend (30 : ℕ) (List.range 30) = List.range 30 := by
  have h := c3_amended_log_capacity (20 : ℕ) (List.range 20) (List.range 30)
    (by simp) (by simp)
  exact ⟨h.2.2.1 (by simp), h.2.2.2.2.2 (by simp)⟩

/-- C6: `addEventToMotionLog` of motion_detection3.ino.  Whenever the log is
nonempty (which, in this sketch, is exactly when a previous successful append
exists — the log is never cleared — and `lastLogEntryTime_ms` is that append's
time): a call within `MIN_LOG_INTERVAL_MS = 250` ms of the previous append
leaves the log and the last-append time entirely unchanged (silent drop, not an
error), and a call at or beyond the interval appends the entry at the end
(evicting the oldest entry first when the log is at its capacity of 10) and
updates the last-append time to now. -/
theorem c6_append_debounce (ts now : ℕ) (ty : String) (r p : ℚ)
    (log : MD3.MotionEventLog) (hne : log.entries ≠ []) :
    (now - log.lastLogEntryTime_ms < 250 →
      MD3.addEventToMotionLog ts ty r p now log = log) ∧
    (250 ≤ now - log.lastLogEntryTime_ms →
      (MD3.addEventToMotionLog ts ty r p now log).lastLogEntryTime_ms = now ∧
      (log.entries.length < 10 →
        (MD3.addEventToMotionLog ts ty r p now log).entries = log.entries ++ [⟨ts, ty, r, p⟩]) ∧
      (log.entries.length = 10 →
        (MD3.addEventToMotionLog ts ty r p now log).entries
          = log.entries.tail ++ [⟨ts, ty, r, p⟩]) ∧
      (MD3.addEventToMotionLog ts ty r p now log).entries.getLast? = some ⟨ts, ty, r, p⟩ ∧
      (log.entries.length ≤ 10 →
        (MD3.addEventToMotionLog ts ty r p now log).entries.length ≤ 10)) := by
  constructor
  · intro hlt
    simp [MD3.addEventToMotionLog, MD3.MIN_LOG_INTERVAL_MS, hlt, hne]
  · intro hge
    have hc : ¬ (now - log.lastLogEntryTime_ms < MD3.MIN_LOG_INTERVAL_MS ∧ log.entries ≠ []) := by
      simp [MD3.MIN_LOG_INTERVAL_MS]
      omega
    refine ⟨?_, ?_, ?_, ?_, ?_⟩
    · simp [MD3.addEventToMotionLog, hc]
    · intro hlt
      have hc2 : ¬ MD3.MAX_LOG_ENTRIES ≤ log.entries.length := by
        simp [MD3.MAX_LOG_ENTRIES]; omega
      simp [MD3.addEventToMotionLog, hc, hc2]
    · intro heq
      have hc2 : MD3.MAX_LOG_ENTRIES ≤ log.entries.length := by
        simp [MD3.MAX_LOG_ENTRIES]; omega
      simp [MD3.addEventToMotionLog, hc, hc2]
    · simp [MD3.addEventToMotionLog, hc]
    · intro hle
      have hgoal : (MD3.addEventToMotionLog ts ty r p now log).entries
          = (if MD3.MAX_LOG_ENTRIES ≤ log.entries.length then log.entries.tail
              else log.entries) ++ [⟨ts, ty, r, p⟩] := by
        simp [MD3.addEventToMotionLog, hc]
      rw [hgoal]
      by_cases hc2 : MD3.MAX_LOG_ENTRIES ≤ log.entries.length
      · rw [if_pos hc2]
        simp only [MD3.MAX_LOG_ENTRIES] at hc2
        simp only [List.length_append, List.length_tail, List.length_cons, List.length_nil]
        omega
      · rw [if_neg hc2]
        simp only [MD3.MAX_LOG_ENTRIES] at hc2
        simp only [List.length_append, List.length_cons, List.length_nil]
        omega

theorem c6_witness :
    MD3.addEventToMotionLog 150 "Tilt Detected" 1 2 150
        ⟨[⟨100, "Tilt Detected", 1, 2⟩], 100⟩
      = ⟨[⟨100, "Tilt Detected", 1, 2⟩], 100⟩ ∧
    (MD3.addEventToMotionLog 600 "Slide Detected" 3 4 600
        ⟨[⟨100, "Tilt Detected", 1, 2⟩], 100⟩).entries
      = [⟨100, "Tilt Detected", 1, 2⟩, ⟨600, "Slide Detected", 3, 4⟩] := by
  have h1 := c6_append_debounce 150 150 "Tilt Detected" 1 2
    ⟨[⟨100, "Tilt Detected", 1, 2⟩], 100⟩ (by simp)
  have h2 := c6_append_debounce 600 600 "Slide Detected" 3 4
    ⟨[⟨100, "Tilt Detected", 1, 2⟩], 100⟩ (by simp)
  refine ⟨h1.1 (by decide), ?_⟩
  have h3 := (h2.2 (by decide)).2.1 (by decide)
  simpa using h3

/-- C7 counterexample: at the very tick where the slow-move candidate becomes
sustained (deviation above threshold for the duration of 750 ms, candidate
started at 0, now 750, smoothed magnitude 10 against baseline 1),
`checkForSlowMove` fires the event AND rewrites the baseline reference to the
current smoothed magnitude — the baseline is not left unchanged on that tick,
so the active tamper magnitude is absorbed into the baseline. -/
theorem c7_counterexample :
    (Aura.checkForSlowMove 750 (List.replicate 5 10) ⟨1, true, 0, true⟩).2 = true ∧
    (Aura.checkForSlowMove 750 (List.replicate 5 10) ⟨1, true, 0, true⟩).1.accelBaselineMagnitude
      = 10 ∧ (10 : ℚ) ≠ 1 := by
  have h1 : Aura.smoothedMagnitude (List.replicate 5 10) = 10 := by
    norm_num [Aura.smoothedMagnitude, List.sum_replicate, nsmul_eq_mul]
  have h2 : Aura.SLOW_MOVE_THRESHOLD_G
      < |Aura.smoothedMagnitude (List.replicate 5 10) - (1 : ℚ)| := by
    rw [h1, show |(10 : ℚ) - 1| = 9 by norm_num [abs_of_nonneg]]
    norm_num [Aura.SLOW_MOVE_THRESHOLD_G]
  have h3 : Aura.checkForSlowMove 750 (List.replicate 5 10) ⟨1, true, 0, true⟩
      = (⟨10, false, 0, true⟩, true) := by
    simp only [Aura.checkForSlowMove]
    norm_num [h1, h2, Aura.SLOW_MOVE_MIN_DURATION_MS]
    intro hcontra
    norm_num [Aura.SLOW_MOVE_THRESHOLD_G] at hcontra
  rw [h3]
  norm_num

/-- C7 amended: with the baseline established, the exponential 0.95/0.05 blend
of `checkForSlowMove` runs only on ticks where the smoothed deviation is at or
below the threshold (and `millis()` is a multiple of 1000); on every tick with
deviation above the threshold the baseline is left unchanged EXCEPT the single
tick on which the candidate fires as a sustained slow move, where the baseline
is reassigned to the current smoothed magnitude (deliberate re-baselining of
the event). -/
theorem c7_amended_baseline_blend (now : ℕ) (samples : List ℚ) (st : Aura.SlowMoveState)
    (hest : st.baselineEstablished = true) :
    (Aura.SLOW_MOVE_THRESHOLD_G
        < |Aura.smoothedMagnitude samples - st.accelBaselineMagnitude| →
      ((Aura.checkForSlowMove now samples st).1.accelBaselineMagnitude
          = st.accelBaselineMagnitude ∧
        (Aura.checkForSlowMove now samples st).2 = false) ∨
      ((Aura.checkForSlowMove now samples st).1.accelBaselineMagnitude
          = Aura.smoothedMagnitude samples ∧
        (Aura.checkForSlowMove now samples st).2 = true)) ∧
    (|Aura.smoothedMagnitude samples - st.accelBaselineMagnitude|
        ≤ Aura.SLOW_MOVE_THRESHOLD_G →
      (Aura.checkForSlowMove now samples st).2 = false ∧
      (¬ now % 1000 = 0 →
        (Aura.checkForSlowMove now samples st).1.accelBaselineMagnitude
          = st.accelBaselineMagnitude) ∧
      (now % 1000 = 0 →
        (Aura.checkForSlowMove now samples st).1.accelBaselineMagnitude
          = st.accelBaselineMagnitude * (95/100) + Aura.smoothedMagnitude samples * (5/100))) := by
  have hest2 : ¬ st.baselineEstablished = false := by simp [hest]
  constructor
  · intro habove
    by_cases hpot : st.potentialSlowMove = false
    · left
      simp [Aura.checkForSlowMove, hest2, habove, hpot]
    · by_cases hdur : Aura.SLOW_MOVE_MIN_DURATION_MS ≤ now - st.slowMoveStartTime
      · right
        simp [Aura.checkForSlowMove, hest2, habove, hpot, hdur]
      · left
        simp [Aura.checkForSlowMove, hest2, habove, hpot, hdur]
  · intro hbelow
    have habove : ¬ Aura.SLOW_MOVE_THRESHOLD_G
        < |Aura.smoothedMagnitude samples - st.accelBaselineMagnitude| := not_lt.mpr hbelow
    by_cases hmod : now % 1000 = 0
    · have hmod2 : now % (Aura.ACCEL_READ_INTERVAL_MS * 10) = 0 := hmod
      refine ⟨?_, fun hmn => absurd hmod hmn, fun _ => ?_⟩ <;>
        simp [Aura.checkForSlowMove, hest2, habove, hmod2]
    · have hmod2 : ¬ now % (Aura.ACCEL_READ_INTERVAL_MS * 10) = 0 := hmod
      refine ⟨?_, fun _ => ?_, fun hm => absurd hm hmod⟩ <;>
        simp [Aura.checkForSlowMove, hest2, habove, hmod2]

theorem c7_witness :
    (Aura.checkForSlowMove 3 (List.replicate 5 1) ⟨1, false, 0, true⟩).2 = false ∧
    (Aura.checkForSlowMove 3 (List.replicate 5 1) ⟨1, false, 0, true⟩).1.accelBaselineMagnitude
      = 1 := by
  have h := c7_amended_baseline_blend 3 (List.replicate 5 1) ⟨1, false, 0, true⟩ rfl
  have h1 : Aura.smoothedMagnitude (List.replicate 5 1) = 1 := by
    norm_num [Aura.smoothedMagnitude, List.sum_replicate, nsmul_eq_mul]
  have hbelow : |Aura.smoothedMagnitude (List.replicate 5 1) - (1 : ℚ)|
      ≤ Aura.SLOW_MOVE_THRESHOLD_G := by
    rw [h1]
    norm_num [Aura.SLOW_MOVE_THRESHOLD_G]
  have h2 := h.2 hbelow
  exact ⟨h2.1, h2.2.1 (by norm_num)⟩

/-- C8 counterexample: `processSensorData` of motion_detection3.ino (and
identically part_001), both cited by the claim, applies `atan2` with no
near-zero guard: at a sample with `accel.y = accel.z = 0` and previous roll 5°,
the new roll is `atan2(0,0) * 180/π = 0`, not the previous roll — the claimed
fallback to the previous roll does not exist in these variants. -/
theorem c8_counterexample :
    MD3.processSensorDataRoll atan2degAtOrigin 5 0 0 = 0 ∧ (0 : ℚ) ≠ 5 :=
  ⟨rfl, by norm_num⟩

/-- C8 amended: the near-zero guard exists only in `readTelemetryDataAndAngles`
of motion_detection.ino: there, a sample with both `accel.y` and `accel.z`
within 1e-4 of zero returns the previous roll unchanged (and a near-zero pitch
denominator returns the previous pitch), while any other sample computes
`atan2(accel.y, accel.z)` in degrees; `processSensorData` of
motion_detection3.ino/part_001 always computes `atan2`, discarding the previous
roll. -/
theorem c8_amended_near_zero_guard (atan2deg : ℚ → ℚ → ℚ)
    (pitchFromSample : ℚ → ℚ → ℚ → ℚ) (ax ay az prevRoll prevPitch : ℚ) :
    (|az| < MD1.NEAR_ZERO_EPS → |ay| < MD1.NEAR_ZERO_EPS →
      MD1.readRoll atan2deg ay az prevRoll false = prevRoll) ∧
    (¬ (|az| < MD1.NEAR_ZERO_EPS ∧ |ay| < MD1.NEAR_ZERO_EPS) →
      MD1.readRoll atan2deg ay az prevRoll false = atan2deg ay az) ∧
    (ay^2 + az^2 < MD1.NEAR_ZERO_EPS^2 →
      MD1.readPitch pitchFromSample ax ay az prevPitch false = prevPitch) ∧
    MD3.processSensorDataRoll atan2deg prevRoll ay az = atan2deg ay az := by
  refine ⟨fun h1 h2 => ?_, fun h => ?_, fun h => ?_, rfl⟩
  · simp [MD1.readRoll, h1, h2]
  · simp [MD1.readRoll, h]
  · simp [MD1.readPitch, h]

theorem c8_witness :
    MD1.readRoll atan2degAtOrigin 0 0 7 false = 7 ∧
    MD1.readPitch (fun _ _ _ => 0) 0 0 0 9 false = 9 := by
  have h := c8_amended_near_zero_guard atan2degAtOrigin (fun _ _ _ => 0) 0 0 0 7 9
  refine ⟨h.1 ?_ ?_, h.2.2.1 ?_⟩ <;> norm_num [MD1.NEAR_ZERO_EPS]

/-- C9 counterexample: `handleUpdateSettings` of motion_detection2.ino, a cited
source, does not clamp: submitting the out-of-range slide threshold 10 m/s²
(documented range 0.05..5.0) leaves the current value 0.5 unchanged instead of
producing the clamped value `constrain(10, 0.05, 5.0) = 5.0` — the value is
rejected (with only a serial warning), not clamped. -/
theorem c9_counterexample :
    MD2.handleUpdateSlideThresh 10 (1/2) = 1/2 ∧
    MD2.handleUpdateSlideThresh 10 (1/2) ≠ constrainQ 10 (1/20) 5 := by
  have h1 : MD2.handleUpdateSlideThresh 10 (1/2) = 1/2 := by
    norm_num [MD2.handleUpdateSlideThresh]
  have h2 : constrainQ 10 (1/20) 5 = 5 := by
    norm_num [constrainQ]
  exact ⟨h1, by rw [h1, h2]; norm_num⟩

theorem constrainQ_mem (x lo hi : ℚ) (h : lo ≤ hi) :
    lo ≤ constrainQ x lo hi ∧ constrainQ x lo hi ≤ hi := by
  unfold constrainQ
  by_cases h1 : x < lo
  · rw [if_pos h1]; exact ⟨le_refl lo, h⟩
  · rw [if_neg h1]
    by_cases h2 : hi < x
    · rw [if_pos h2]; exact ⟨h, le_refl hi⟩
    · rw [if_neg h2]; exact ⟨not_lt.mp h1, not_lt.mp h2⟩

theorem constrainZ_mem (x lo hi : ℤ) (h : lo ≤ hi) :
    lo ≤ constrainZ x lo hi ∧ constrainZ x lo hi ≤ hi := by
  unfold constrainZ
  by_cases h1 : x < lo
  · rw [if_pos h1]; exact ⟨le_refl lo, h⟩
  · rw [if_neg h1]
    by_cases h2 : hi < x
    · rw [if_pos h2]; exact ⟨h, le_refl hi⟩
    · rw [if_neg h2]; exact ⟨not_lt.mp h1, not_lt.mp h2⟩

/-- C9 amended: the inc/dec settings handlers of Motion_Detection4.ino clamp
every resulting value into its documented range with `constrain` (and redirect
to the page displaying the resulting value), and the sensitivity handlers of
part_000, Tap-Guard v8 and Motion_Detection_Alpha2 clamp the submitted
sensitivity into its range; but `handleUpdateSettings` of motion_detection2.ino
applies an in-range submitted value verbatim and IGNORES an out-of-range one,
leaving the previous setting unchanged rather than clamping. -/
theorem c9_amended_clamping :
    (∀ (action : String) (cur : ℚ),
      1/5 ≤ V4.handleUpdateTiltThresh action cur ∧ V4.handleUpdateTiltThresh action cur ≤ 5) ∧
    (∀ (action : String) (cur : ℤ),
      50 ≤ V4.handleUpdateTiltDur action cur ∧ V4.handleUpdateTiltDur action cur ≤ 1000) ∧
    (∀ (action : String) (cur : ℚ),
      1/10 ≤ V4.handleUpdateSlideThresh action cur ∧ V4.handleUpdateSlideThresh action cur ≤ 3) ∧
    (∀ (action : String) (cur : ℤ),
      50 ≤ V4.handleUpdateSlideDur action cur ∧ V4.handleUpdateSlideDur action cur ≤ 1000) ∧
    (∀ v : ℤ, 1 ≤ TG8.hSens v ∧ TG8.hSens v ≤ 10) ∧
    (∀ v : ℤ, 1 ≤ TG7.hSens v ∧ TG7.hSens v ≤ 10) ∧
    (∀ v : ℚ, 0 ≤ Alpha2.hSens v ∧ Alpha2.hSens v ≤ 1) ∧
    (∀ v cur : ℚ, (1/20 ≤ v ∧ v ≤ 5) → MD2.handleUpdateSlideThresh v cur = v) ∧
    (∀ v cur : ℚ, ¬ (1/20 ≤ v ∧ v ≤ 5) → MD2.handleUpdateSlideThresh v cur = cur) ∧
    (∀ v cur : ℕ, ¬ (50 ≤ v ∧ v ≤ 3000) → MD2.handleUpdateSlideDur v cur = cur) := by
  refine ⟨fun a c => constrainQ_mem _ _ _ (by norm_num),
          fun a c => constrainZ_mem _ _ _ (by norm_num),
          fun a c => constrainQ_mem _ _ _ (by norm_num),
          fun a c => constrainZ_mem _ _ _ (by norm_num),
          fun v => constrainZ_mem _ _ _ (by norm_num),
          fun v => constrainZ_mem _ _ _ (by norm_num),
          fun v => constrainQ_mem _ _ _ (by norm_num),
          fun v c h => by unfold MD2.handleUpdateSlideThresh; rw [if_pos h],
          fun v c h => by unfold MD2.handleUpdateSlideThresh; rw [if_neg h],
          fun v c h => by unfold MD2.handleUpdateSlideDur; rw [if_neg h]⟩

theorem c9_witness :
    1/5 ≤ V4.handleUpdateTiltThresh "inc" 10 ∧
    V4.handleUpdateTiltThresh "inc" 10 ≤ 5 ∧
    MD2.handleUpdateSlideThresh 3 (1/2) = 3 := by
  have h := c9_amended_clamping
  exact ⟨(h.1 "inc" 10).1, (h.1 "inc" 10).2,
    h.2.2.2.2.2.2.2.1 3 (1/2) (by norm_num)⟩

theorem ftrunc_mono {q₁ q₂ : ℚ} (h : q₁ ≤ q₂) : ftrunc q₁ ≤ ftrunc q₂ := by
  unfold ftrunc
  by_cases h1 : q₁ < 0
  · by_cases h2 : q₂ < 0
    · rw [if_pos h1, if_pos h2]; exact Int.ceil_mono h
    · rw [if_pos h1, if_neg h2]
      refine le_trans (show ⌈q₁⌉ ≤ 0 from Int.ceil_le.mpr (by exact_mod_cast h1.le)) ?_
      exact Int.floor_nonneg.mpr (not_lt.mp h2)
  · have h2 : ¬ q₂ < 0 := fun hc => h1 (lt_of_le_of_lt h hc)
    rw [if_neg h1, if_neg h2]; exact Int.floor_mono h

theorem ftrunc_le_of_le {q : ℚ} {c : ℤ} (h : q ≤ (c : ℚ)) : ftrunc q ≤ c := by
  unfold ftrunc
  by_cases h1 : q < 0
  · rw [if_pos h1]
    exact le_trans (Int.ceil_mono h) (le_of_eq (Int.ceil_intCast c))
  · rw [if_neg h1]
    exact le_trans (Int.floor_mono h) (le_of_eq (Int.floor_intCast c))

theorem le_ftrunc_of_le {q : ℚ} {c : ℤ} (hc : 0 ≤ c) (h : (c : ℚ) ≤ q) : c ≤ ftrunc q := by
  unfold ftrunc
  have h0 : (0 : ℚ) ≤ q := le_trans (by exact_mod_cast hc) h
  rw [if_neg (not_lt.mpr h0)]
  exact Int.le_floor.mpr h

theorem alpha2_calcThr_bounds (s : ℚ) (h0 : 0 ≤ s) (h1 : s ≤ 1) :
    Alpha2.THR_MIN ≤ Alpha2.calcThr s ∧ Alpha2.calcThr s ≤ Alpha2.THR_MAX := by
  unfold Alpha2.calcThr Alpha2.THR_MIN Alpha2.THR_MAX
  refine ⟨le_max_left _ _, max_le (by norm_num) (ftrunc_le_of_le ?_)⟩
  push_cast
  nlinarith

theorem alpha2_calcThr_antitone (s₁ s₂ : ℚ) (h : s₁ ≤ s₂) :
    Alpha2.calcThr s₂ ≤ Alpha2.calcThr s₁ := by
  unfold Alpha2.calcThr
  refine max_le_max (le_refl _) (ftrunc_mono ?_)
  have h2 : s₁ * ((Alpha2.THR_MAX : ℚ) - (Alpha2.THR_MIN : ℚ))
      ≤ s₂ * ((Alpha2.THR_MAX : ℚ) - (Alpha2.THR_MIN : ℚ)) := by
    apply mul_le_mul_of_nonneg_right h
    norm_num [Alpha2.THR_MAX, Alpha2.THR_MIN]
  linarith

theorem alpha_calcThr_bounds (s : ℚ) (h0 : 0 ≤ s) (h1 : s ≤ 1) :
    1 ≤ Alpha.calcThr s ∧ Alpha.calcThr s ≤ 25 := by
  unfold Alpha.calcThr
  refine ⟨le_max_left _ _, max_le (by norm_num) (ftrunc_le_of_le ?_)⟩
  push_cast
  nlinarith

theorem alpha_calcThr_antitone (s₁ s₂ : ℚ) (h : s₁ ≤ s₂) :
    Alpha.calcThr s₂ ≤ Alpha.calcThr s₁ := by
  unfold Alpha.calcThr
  refine max_le_max (le_refl _) (ftrunc_mono ?_)
  nlinarith

theorem tg7_thrVal_bounds (level : ℤ) (h1 : 1 ≤ level) (h2 : level ≤ 10) :
    TG7.THR_MIN ≤ TG7.thrVal level ∧ TG7.thrVal level ≤ TG7.THR_MAX := by
  unfold TG7.thrVal TG7.THR_MIN TG7.THR_MAX
  have hc1 : (1 : ℚ) ≤ (level : ℚ) := by exact_mod_cast h1
  have hc2 : (level : ℚ) ≤ 10 := by exact_mod_cast h2
  constructor
  · apply le_ftrunc_of_le (by norm_num)
    push_cast
    nlinarith
  · apply ftrunc_le_of_le
    push_cast
    nlinarith

theorem tg7_thrVal_antitone (l₁ l₂ : ℤ) (h : l₁ ≤ l₂) :
    TG7.thrVal l₂ ≤ TG7.thrVal l₁ := by
  unfold TG7.thrVal
  apply ftrunc_mono
  have hc : (l₁ : ℚ) ≤ (l₂ : ℚ) := by exact_mod_cast h
  have hf : (0 : ℚ) ≤ ((TG7.THR_MAX : ℚ) - (TG7.THR_MIN : ℚ)) / 9 := by
    norm_num [TG7.THR_MAX, TG7.THR_MIN]
  have h2 := mul_le_mul_of_nonneg_right (sub_le_sub_right hc 1) hf
  linarith

theorem tg8_thrVal_eq_of_lt (level : ℤ) (h : level < 5) :
    TG8.thrVal level = 106 - 26 * level := by
  unfold TG8.thrVal mapArduino
  rw [if_neg (by omega), if_neg (by omega)]
  have h78 : (level - 1) * (2 - 80) = (26 - 26 * level) * (4 - 1) := by ring
  rw [h78, Int.mul_tdiv_cancel _ (by norm_num)]
  ring

theorem tg8_thrVal_eq_of_ge (level : ℤ) (h : 5 ≤ level) : TG8.thrVal level = 1 := by
  unfold TG8.thrVal
  by_cases he : level = 5
  · rw [if_pos he]
  · rw [if_neg he, if_pos (by omega)]

theorem tg8_thrVal_bounds (level : ℤ) (h1 : 1 ≤ level) (h2 : level ≤ 10) :
    1 ≤ TG8.thrVal level ∧ TG8.thrVal level ≤ 80 := by
  by_cases h : level < 5
  · rw [tg8_thrVal_eq_of_lt level h]; omega
  · rw [tg8_thrVal_eq_of_ge level (by omega)]; omega

theorem tg8_thrVal_antitone (l₁ l₂ : ℤ) (h : l₁ ≤ l₂) :
    TG8.thrVal l₂ ≤ TG8.thrVal l₁ := by
  by_cases h1 : l₁ < 5
  · by_cases h2 : l₂ < 5
    · rw [tg8_thrVal_eq_of_lt l₁ h1, tg8_thrVal_eq_of_lt l₂ h2]; omega
    · rw [tg8_thrVal_eq_of_ge l₂ (by omega), tg8_thrVal_eq_of_lt l₁ h1]; omega
  · rw [tg8_thrVal_eq_of_ge l₁ (by omega), tg8_thrVal_eq_of_ge l₂ (by omega)]

/-- C10: each sensitivity-to-hardware-threshold mapping of the corpus stays
within its device bounds on its valid input range — `calcThr` of
Motion_Detection_Alpha2 in `[THR_MIN, THR_MAX] = [1, 120]` for sens in `[0,1]`,
`calcThr` of Motion_Detection_Alpha in `[1, 25]`, `thrVal` of part_000 in
`[THR_MIN, THR_MAX] = [1, 180]` for level in `[1,10]`, and `thrVal` of
Tap-Guard v8 in `[1, 80]` — and each mapping is monotonically nonincreasing in
the sensitivity setting: a higher sensitivity never yields a strictly larger
(less sensitive) hardware threshold. -/
theorem c10_sens_threshold_map :
    (∀ s : ℚ, 0 ≤ s → s ≤ 1 →
      Alpha2.THR_MIN ≤ Alpha2.calcThr s ∧ Alpha2.calcThr s ≤ Alpha2.THR_MAX ∧
      1 ≤ Alpha.calcThr s ∧ Alpha.calcThr s ≤ 25) ∧
    (∀ s₁ s₂ : ℚ, s₁ ≤ s₂ →
      Alpha2.calcThr s₂ ≤ Alpha2.calcThr s₁ ∧ Alpha.calcThr s₂ ≤ Alpha.calcThr s₁) ∧
    (∀ level : ℤ, 1 ≤ level → level ≤ 10 →
      TG7.THR_MIN ≤ TG7.thrVal level ∧ TG7.thrVal level ≤ TG7.THR_MAX ∧
      1 ≤ TG8.thrVal level ∧ TG8.thrVal level ≤ 80) ∧
    (∀ l₁ l₂ : ℤ, l₁ ≤ l₂ →
      TG7.thrVal l₂ ≤ TG7.thrVal l₁ ∧ TG8.thrVal l₂ ≤ TG8.thrVal l₁) := by
  refine ⟨fun s h0 h1 => ?_, fun s₁ s₂ h => ?_, fun l h1 h2 => ?_, fun l₁ l₂ h => ?_⟩
  · obtain ⟨a1, a2⟩ := alpha2_calcThr_bounds s h0 h1
    obtain ⟨b1, b2⟩ := alpha_calcThr_bounds s h0 h1
    exact ⟨a1, a2, b1, b2⟩
  · exact ⟨alpha2_calcThr_antitone s₁ s₂ h, alpha_calcThr_antitone s₁ s₂ h⟩
  · obtain ⟨a1, a2⟩ := tg7_thrVal_bounds l h1 h2
    obtain ⟨b1, b2⟩ := tg8_thrVal_bounds l h1 h2
    exact ⟨a1, a2, b1, b2⟩
  · exact ⟨tg7_thrVal_antitone l₁ l₂ h, tg8_thrVal_antitone l₁ l₂ h⟩

theorem c10_witness :
    Alpha2.THR_MIN ≤ Alpha2.calcThr (1/2) ∧
    Alpha2.calcThr (1/2) ≤ Alpha2.THR_MAX ∧
    TG8.thrVal 7 ≤ TG8.thrVal 3 ∧
    TG7.thrVal 10 ≤ TG7.thrVal 1 := by
  have h := c10_sens_threshold_map
  refine ⟨(h.1 (1/2) (by norm_num) (by norm_num)).1,
          (h.1 (1/2) (by norm_num) (by norm_num)).2.1,
          (h.2.2.2 3 7 (by norm_num)).2,
          (h.2.2.2 1 10 (by norm_num)).1⟩
